import Mathlib

/-!
Verification of the billing-ledger core of the trichology clinic application
(`database.py`, `main.py`).

Shallow embedding conventions:
* SQLite REAL money columns are modelled as rationals (`ℚ`).
* AUTOINCREMENT integer primary keys are modelled as `Nat` counters carried in
  the database state; `lastrowid` of an INSERT is the counter value used.
* TEXT timestamp columns hold strings in the sortable format
  `YYYY-MM-DD HH:MM:SS`, whose lexicographic order agrees with chronological
  order; they are modelled as `Nat` time points, and `datetime.now()` becomes
  an explicit `now : Nat` argument.
* A table is a list of rows in insertion order; `INSERT` appends at the end.
* JSON-encoded history columns are modelled as native lists (they are parsed
  with `json.loads` right after every read and serialized right before every
  write in the source).
* The success path of the storage layer is modelled directly; the
  exception/rollback path of `sync_clinic_treatments_to_billing` is modelled
  explicitly by `sync_with_failure` below.
-/

namespace Clinic

/-- Money amounts (SQLite REAL columns) modelled as rationals. -/
abbrev Money := ℚ

/-- A row of the `payments` table (database.py, `init_db`, lines 100-118).
The `status` column has schema default `'paid'`. -/
structure PaymentRecord where
  id : Nat
  patient_pesel : String
  payment_date : Nat
  amount : Money
  payment_type : String
  description : String
  reference_id : Option Nat
  reference_type : Option String
  payment_method : String
  notes : String
  status : String
  created_at : Nat
  updated_at : Nat
  deriving Repr, DecidableEq

/-- A row of the `treatment_pricing` table (database.py, lines 195-208):
a treatment charge line.  `price` is the line's amount, `paid_amount`
defaults to 0, `reference_id` points back at a `clinic_treatments` row. -/
structure TreatmentPricing where
  id : Nat
  patient_pesel : String
  treatment_name : String
  treatment_type : String
  price : Money
  paid_amount : Money
  reference_id : Option Nat
  created_at : Nat
  updated_at : Nat
  deriving Repr, DecidableEq

/-- A row of the `product_sales` table (database.py, lines 211-226). -/
structure ProductSale where
  id : Nat
  patient_pesel : String
  product_name : String
  product_type : String
  quantity : Nat
  unit_price : Money
  total_price : Money
  paid_amount : Money
  sale_date : Nat
  created_at : Nat
  updated_at : Nat
  deriving Repr, DecidableEq

/-- A row of the `visits` table (database.py, lines 121-141).  `cost` and
`paid_amount` default to 0 and `init_db` backfills NULLs with 0, so both are
modelled as total values. -/
structure Visit where
  id : Nat
  pesel : String
  visit_date : Nat
  visit_type : String
  purpose : String
  cost : Money
  paid_amount : Money
  deriving Repr, DecidableEq

/-- A row of the `available_treatments` catalog table (database.py,
lines 229-240): `name` is UNIQUE, `is_active` defaults to 1. -/
structure AvailableTreatment where
  id : Nat
  name : String
  type : String
  default_price : Money
  description : String
  is_active : Bool
  deriving Repr, DecidableEq

/-- One entry of the JSON `history` column of `clinic_treatments`
(main.py, lines 1551-1555). -/
structure HistoryEntry where
  from_status : String
  to_status : String
  timestamp : Nat
  deriving Repr, DecidableEq

/-- A row of the `clinic_treatment_plans` table (insert at main.py 1444). -/
structure ClinicTreatmentPlan where
  id : Nat
  pesel : String
  is_active : Bool
  deriving Repr, DecidableEq

/-- A row of the `clinic_treatments` table (insert at main.py 1461-1469):
a clinician-authored treatment-plan instance. -/
structure ClinicTreatment where
  id : Nat
  plan_id : Nat
  treatment_name : String
  treatment_type : String
  quantity : Nat
  completed_count : Nat
  status : String
  history : List HistoryEntry
  position : Nat
  created_at : Nat
  deriving Repr, DecidableEq

/-- The database state: the tables the billing core touches, plus the
AUTOINCREMENT counters.  Patients are kept only as the set of valid PESEL
keys, since the billing core uses the patient directory only for existence
checks (`get_patient`). -/
structure DB where
  patients : List String
  payments : List PaymentRecord
  treatment_pricing : List TreatmentPricing
  product_sales : List ProductSale
  visits : List Visit
  available_treatments : List AvailableTreatment
  clinic_treatment_plans : List ClinicTreatmentPlan
  clinic_treatments : List ClinicTreatment
  next_payment_id : Nat
  next_pricing_id : Nat
  next_visit_id : Nat
  next_plan_id : Nat
  next_clinic_treatment_id : Nat
  deriving Repr, DecidableEq

/-- The fresh database: empty tables, AUTOINCREMENT counters
start at 1 (SQLite row ids start at 1). -/
def emptyDB : DB :=
  { patients := []
    payments := []
    treatment_pricing := []
    product_sales := []
    visits := []
    available_treatments := []
    clinic_treatment_plans := []
    clinic_treatments := []
    next_payment_id := 1
    next_pricing_id := 1
    next_visit_id := 1
    next_plan_id := 1
    next_clinic_treatment_id := 1 }

/-! ## Operations of the billing core, translated from the source -/

/-- Models `get_patient(pesel)` as far as the billing core uses it: only the
existence check matters (main.py, e.g. line 3301). -/
def patient_exists (db : DB) (pesel : String) : Bool :=
  db.patients.contains pesel

/-- Python truthiness of an optional integer JSON field (`None` and `0` are
falsy). -/
def truthyNat : Option Nat → Bool
  | none => false
  | some n => n != 0

/-- Python truthiness of an optional string JSON field (`None` and `""` are
falsy). -/
def truthyStr : Option String → Bool
  | none => false
  | some s => s != ""

/-- Translation of `database.add_payment` (database.py, lines 658-692),
success path.  The INSERT names every column except `status`, so the schema
default `'paid'` (database.py line 111) applies to the new row.  Returns
`cursor.lastrowid` and the new state. -/
def add_payment (db : DB) (patient_pesel : String) (amount : Money)
    (payment_type description : String) (reference_id : Option Nat)
    (reference_type : Option String) (payment_method notes : String)
    (now : Nat) : Nat × DB :=
  let pid := db.next_payment_id
  let p : PaymentRecord :=
    { id := pid, patient_pesel := patient_pesel, payment_date := now
      amount := amount, payment_type := payment_type
      description := description, reference_id := reference_id
      reference_type := reference_type, payment_method := payment_method
      notes := notes, status := "paid", created_at := now, updated_at := now }
  (pid, { db with payments := db.payments ++ [p], next_payment_id := pid + 1 })

/-- The per-row effect of the treatment branch of `update_payment_for_item`
(database.py, lines 975-980): `SET paid_amount = paid_amount + ?,
updated_at = ? WHERE id = ? AND patient_pesel = ?`. -/
def bump_tp (patient_pesel : String) (item_id : Nat) (amount : Money)
    (now : Nat) (tp : TreatmentPricing) : TreatmentPricing :=
  if tp.id == item_id && tp.patient_pesel == patient_pesel then
    { tp with paid_amount := tp.paid_amount + amount, updated_at := now }
  else tp

/-- The per-row effect of the visit branch of `update_payment_for_item`
(database.py, lines 981-986): `SET paid_amount = paid_amount + ?
WHERE id = ? AND pesel = ?`. -/
def bump_visit (pesel : String) (item_id : Nat) (amount : Money)
    (v : Visit) : Visit :=
  if v.id == item_id && v.pesel == pesel then
    { v with paid_amount := v.paid_amount + amount }
  else v

/-- The per-row effect of the product branch of `update_payment_for_item`
(database.py, lines 987-992). -/
def bump_ps (patient_pesel : String) (item_id : Nat) (amount : Money)
    (now : Nat) (ps : ProductSale) : ProductSale :=
  if ps.id == item_id && ps.patient_pesel == patient_pesel then
    { ps with paid_amount := ps.paid_amount + amount, updated_at := now }
  else ps

/-- Translation of `database.update_payment_for_item` (database.py,
lines 964-1013).  The UPDATE touches every row matching `id = ? AND
patient/pesel = ?` (with the primary key there is at most one); the returned
flag is `cursor.rowcount > 0`.  An unrecognized `item_type` returns `False`
before any statement runs. -/
def update_payment_for_item (db : DB) (patient_pesel : String)
    (item_type : String) (item_id : Nat) (amount : Money) (now : Nat) :
    Bool × DB :=
  if item_type == "treatment" then
    let matched := db.treatment_pricing.any
      (fun tp => tp.id == item_id && tp.patient_pesel == patient_pesel)
    (matched, { db with
      treatment_pricing :=
        db.treatment_pricing.map (bump_tp patient_pesel item_id amount now) })
  else if item_type == "visit" then
    let matched := db.visits.any
      (fun v => v.id == item_id && v.pesel == patient_pesel)
    (matched, { db with
      visits := db.visits.map (bump_visit patient_pesel item_id amount) })
  else if item_type == "product" then
    let matched := db.product_sales.any
      (fun ps => ps.id == item_id && ps.patient_pesel == patient_pesel)
    (matched, { db with
      product_sales :=
        db.product_sales.map (bump_ps patient_pesel item_id amount now) })
  else
    (false, db)

/-- Translation of the API route `add_payment_api` (main.py, lines
3286-3328), success path of the storage layer: after the patient-existence
check it calls `add_payment`, and then, only when both `reference_id` and
`reference_type` are truthy, calls `update_payment_for_item` whose boolean
result is ignored.  Returns the payment id (`none` models the 404 branch). -/
def add_payment_api (db : DB) (pesel : String) (amount : Money)
    (payment_type description : String) (reference_id : Option Nat)
    (reference_type : Option String) (payment_method notes : String)
    (now : Nat) : Option Nat × DB :=
  if patient_exists db pesel then
    let r := add_payment db pesel amount payment_type description
      reference_id reference_type payment_method notes now
    if truthyNat reference_id && truthyStr reference_type then
      (some r.1,
       (update_payment_for_item r.2 pesel (reference_type.getD "")
          (reference_id.getD 0) amount now).2)
    else
      (some r.1, r.2)
  else
    (none, db)

/-- Translation of `database.add_treatment_pricing` (database.py, lines
892-925), success path: unconditional INSERT of a treatment charge line with
`paid_amount` at its schema default 0; no duplicate check of any kind. -/
def add_treatment_pricing (db : DB) (patient_pesel treatment_name
    treatment_type : String) (price : Money) (reference_id : Option Nat)
    (now : Nat) : Nat × DB :=
  let pid := db.next_pricing_id
  let tp : TreatmentPricing :=
    { id := pid, patient_pesel := patient_pesel
      treatment_name := treatment_name, treatment_type := treatment_type
      price := price, paid_amount := 0, reference_id := reference_id
      created_at := now, updated_at := now }
  (pid, { db with treatment_pricing := db.treatment_pricing ++ [tp]
                  next_pricing_id := pid + 1 })

/-- Translation of the API route `add_treatment_pricing_api` (main.py,
lines 3399-3434): patient-existence check, then `add_treatment_pricing`. -/
def add_treatment_pricing_api (db : DB) (pesel : String)
    (treatment_name treatment_type : String) (price : Money)
    (reference_id : Option Nat) (now : Nat) : Option Nat × DB :=
  if patient_exists db pesel then
    let r := add_treatment_pricing db pesel treatment_name treatment_type
      price reference_id now
    (some r.1, r.2)
  else
    (none, db)

/-- Translation of `database.add_visit` (database.py, lines 820-839):
INSERT into `visits` with `paid_amount = 0`. -/
def add_visit (db : DB) (pesel : String) (visit_date : Nat)
    (visit_type description : String) (cost : Money) : Nat × DB :=
  let vid := db.next_visit_id
  let v : Visit :=
    { id := vid, pesel := pesel, visit_date := visit_date
      visit_type := visit_type, purpose := description
      cost := cost, paid_amount := 0 }
  (vid, { db with visits := db.visits ++ [v], next_visit_id := vid + 1 })

/-- Translation of `database.get_treatment_price` (database.py, lines
1334-1362): `SELECT default_price FROM available_treatments WHERE name = ?
AND is_active = 1` followed by `fetchone` (at most one row matches because
`name` is UNIQUE). -/
def get_treatment_price (db : DB) (treatment_name : String) : Option Money :=
  (db.available_treatments.find?
    (fun t => t.name == treatment_name && t.is_active)).map
      (fun t => t.default_price)

/-- The static fallback price dictionary of
`sync_clinic_treatments_to_billing` (database.py, lines 1053-1066),
including the `.get(treatment_type, 100.0)` default for keys absent from the
dictionary. -/
def default_prices (treatment_type : String) : Money :=
  if treatment_type == "injection" then 350
  else if treatment_type == "laser" then 200
  else if treatment_type == "massage" then 150
  else if treatment_type == "mesotherapy" then 300
  else if treatment_type == "led" then 100
  else if treatment_type == "microneedling" then 250
  else if treatment_type == "prp" then 400
  else if treatment_type == "carboxytherapy" then 180
  else if treatment_type == "peeling" then 120
  else if treatment_type == "consultation" then 80
  else if treatment_type == "other" then 100
  else 100

/-- The candidate SELECT of `sync_clinic_treatments_to_billing`
(database.py, lines 1025-1037): clinic treatments joined with their plan,
restricted to the patient, that do not yet have a `treatment_pricing` row
with the same patient, name, type and `reference_id`.  The SQL `DISTINCT`
is a no-op: the selected columns include the primary key `ct.id`, and all
matching plan rows contribute the same `cp.pesel`, so the join with the
plans is an existential test. -/
def sync_candidates (db : DB) (pesel : String) : List ClinicTreatment :=
  db.clinic_treatments.filter (fun ct =>
    db.clinic_treatment_plans.any
      (fun cp => cp.id == ct.plan_id && cp.pesel == pesel) &&
    !(db.treatment_pricing.any (fun tp =>
        tp.patient_pesel == pesel &&
        tp.treatment_name == ct.treatment_name &&
        tp.treatment_type == ct.treatment_type &&
        tp.reference_id == some ct.id)))

/-- Unit price resolution inside the sync loop (database.py, lines
1049-1066): catalog lookup by name, else the fallback dictionary keyed by
treatment type. -/
def sync_unit_price (db : DB) (ct : ClinicTreatment) : Money :=
  match get_treatment_price db ct.treatment_name with
  | some price => price
  | none => default_prices ct.treatment_type

/-- The row inserted by one pass of the sync loop (database.py, lines
1068-1073): `price` is the resolved unit price times the instance quantity,
`reference_id` is the clinic treatment id, `paid_amount` takes its schema
default 0. -/
def sync_line (db : DB) (pesel : String) (pid : Nat) (ct : ClinicTreatment)
    (now : Nat) : TreatmentPricing :=
  { id := pid, patient_pesel := pesel
    treatment_name := ct.treatment_name
    treatment_type := ct.treatment_type
    price := sync_unit_price db ct * (ct.quantity : Money)
    paid_amount := 0, reference_id := some ct.id
    created_at := now, updated_at := now }

/-- The rows appended by the sync loop, given the first fresh row id.  The
price lookups read `available_treatments`, which the loop never writes, so
they are evaluated against the pre-loop state exactly as in the source. -/
def sync_lines_from (db : DB) (pesel : String) (now : Nat) :
    Nat → List ClinicTreatment → List TreatmentPricing
  | _, [] => []
  | pid, ct :: rest =>
    sync_line db pesel pid ct now :: sync_lines_from db pesel now (pid + 1) rest

/-- Translation of `database.sync_clinic_treatments_to_billing`
(database.py, lines 1015-1091), success path: the candidate list is computed
once, every candidate is inserted, and the returned count is
`len(treatments)`, the number of candidates. -/
def sync_clinic_treatments_to_billing (db : DB) (pesel : String)
    (now : Nat) : Nat × DB :=
  let cands := sync_candidates db pesel
  (cands.length, { db with
    treatment_pricing :=
      db.treatment_pricing ++ sync_lines_from db pesel now db.next_pricing_id cands
    next_pricing_id := db.next_pricing_id + cands.length })

/-- Execution of `sync_clinic_treatments_to_billing` with a storage failure
injected at the INSERT of candidate index `failAt` (when `failAt` is within
the loop).  All statements of the call run on one connection and the single
`conn.commit()` (database.py line 1075) comes only after the loop; the
`sqlite3.Error` handler (database.py lines 1080-1085) calls
`conn.rollback()`, undoing every uncommitted insert of this call, and
returns 0. -/
def sync_with_failure (db : DB) (pesel : String) (now : Nat)
    (failAt : Option Nat) : Nat × DB :=
  match failAt with
  | some k =>
    if k < (sync_candidates db pesel).length then (0, db)
    else sync_clinic_treatments_to_billing db pesel now
  | none => sync_clinic_treatments_to_billing db pesel now

/-- One per-category block of the summary returned by
`get_payment_summary`. -/
structure CategorySummary where
  total : Money
  paid : Money
  outstanding : Money
  deriving Repr, DecidableEq

/-- The summary returned by `get_payment_summary`. -/
structure PaymentSummary where
  total_paid : Money
  total_due : Money
  balance : Money
  treatments : CategorySummary
  products : CategorySummary
  visits : CategorySummary
  deriving Repr, DecidableEq

/-- Translation of `database.get_payment_summary` (database.py, lines
731-818).  Each SQL `SUM(...)` over the patient's rows is a list sum; the
`or 0` applied to every fetched sum maps SQL NULL (empty aggregation) to 0,
which is the value of the empty list sum. -/
def get_payment_summary (db : DB) (pesel : String) : PaymentSummary :=
  let total_paid :=
    ((db.payments.filter
        (fun p => p.patient_pesel == pesel && p.status == "paid")).map
      (fun p => p.amount)).sum
  let patient_tp := db.treatment_pricing.filter
    (fun tp => tp.patient_pesel == pesel)
  let total_treatments := (patient_tp.map (fun tp => tp.price)).sum
  let paid_treatments := (patient_tp.map (fun tp => tp.paid_amount)).sum
  let patient_ps := db.product_sales.filter
    (fun ps => ps.patient_pesel == pesel)
  let total_products := (patient_ps.map (fun ps => ps.total_price)).sum
  let paid_products := (patient_ps.map (fun ps => ps.paid_amount)).sum
  let patient_v := db.visits.filter (fun v => v.pesel == pesel)
  let total_visits := (patient_v.map (fun v => v.cost)).sum
  let paid_visits := (patient_v.map (fun v => v.paid_amount)).sum
  let total_due := total_treatments + total_products + total_visits
  { total_paid := total_paid
    total_due := total_due
    balance := total_paid - total_due
    treatments :=
      { total := total_treatments, paid := paid_treatments
        outstanding := total_treatments - paid_treatments }
    products :=
      { total := total_products, paid := paid_products
        outstanding := total_products - paid_products }
    visits :=
      { total := total_visits, paid := paid_visits
        outstanding := total_visits - paid_visits } }

/-- One row returned by `get_patient_visits_for_billing`
(database.py, lines 1113-1123). -/
structure VisitBillingRow where
  id : Nat
  visit_date : Nat
  visit_type : String
  description : String
  cost : Money
  paid_amount : Money
  outstanding : Money
  status : String
  deriving Repr, DecidableEq

/-- The row constructor of `get_patient_visits_for_billing`: `outstanding`
is computed in SQL as `cost - COALESCE(paid_amount, 0)` and `status` in
Python as `'paid' if outstanding <= 0 else 'unpaid'`. -/
def visit_billing_row (v : Visit) : VisitBillingRow :=
  { id := v.id, visit_date := v.visit_date, visit_type := v.visit_type
    description := v.purpose, cost := v.cost, paid_amount := v.paid_amount
    outstanding := v.cost - v.paid_amount
    status := if v.cost - v.paid_amount ≤ 0 then "paid" else "unpaid" }

/-- Translation of `database.get_patient_visits_for_billing` (database.py,
lines 1093-1137): a pure read.  The SELECT keeps the patient's visits with
`COALESCE(cost, 0) > 0` and `ORDER BY visit_date DESC` sorts them by date
descending; sorting is modelled with `List.mergeSort` under the
date-descending comparator. -/
def get_patient_visits_for_billing (db : DB) (pesel : String) :
    List VisitBillingRow :=
  (((db.visits.filter (fun v => v.pesel == pesel && decide (0 < v.cost))).map
      visit_billing_row).mergeSort
    (fun a b => b.visit_date ≤ a.visit_date))

/-- Translation of `main.update_clinic_treatment` (main.py, lines
1517-1579) applied to a status-only update, i.e. `updates` containing the
single key `status`.  The current status and history are fetched from the
unique row with the given id; a history entry is appended exactly when the
stored status differs from the supplied one; when no row has the id the
UPDATE matches nothing (`rowcount == 0`) and the call reports failure with
the state unchanged. -/
def update_clinic_treatment_status (db : DB) (treatment_id : Nat)
    (new_status : String) (now : Nat) : Bool × DB :=
  match db.clinic_treatments.find? (fun ct => ct.id == treatment_id) with
  | none => (false, db)
  | some cur =>
    let newHistory :=
      if cur.status == new_status then cur.history
      else cur.history ++ [⟨cur.status, new_status, now⟩]
    (true, { db with
      clinic_treatments := db.clinic_treatments.map (fun ct =>
        if ct.id == treatment_id then
          { ct with status := new_status
                    history :=
                      if cur.status == new_status then ct.history
                      else newHistory }
        else ct) })

/-- Patient creation, reduced to what the billing core observes: the PESEL
becomes a valid key of the patient directory (demographic fields are
irrelevant to every claim). -/
def add_patient (db : DB) (pesel : String) : DB :=
  { db with patients := db.patients ++ [pesel] }

/-- Data for one treatment of a plan being saved
(main.py, lines 1454-1469). -/
structure NewTreatment where
  treatment_name : String
  treatment_type : String
  quantity : Nat
  status : String
  position : Nat
  deriving Repr, DecidableEq

/-- Translation of `main.save_clinic_treatment_plan` (main.py, lines
1425-1478), success path: deactivate the patient's active plans, insert a
fresh active plan, and insert one `clinic_treatments` row per supplied
treatment (history starts empty, `completed_count` 0). -/
def save_clinic_treatment_plan (db : DB) (pesel : String)
    (treatments : List NewTreatment) (now : Nat) : DB :=
  if patient_exists db pesel then
    let plan_id := db.next_plan_id
    let rows := (treatments.enum).map (fun p =>
      ({ id := db.next_clinic_treatment_id + p.1
         plan_id := plan_id
         treatment_name := p.2.treatment_name
         treatment_type := p.2.treatment_type
         quantity := p.2.quantity
         completed_count := 0
         status := p.2.status
         history := []
         position := p.2.position
         created_at := now } : ClinicTreatment))
    { db with
      clinic_treatment_plans :=
        (db.clinic_treatment_plans.map (fun cp =>
          if cp.pesel == pesel && cp.is_active then
            { cp with is_active := false }
          else cp)) ++ [{ id := plan_id, pesel := pesel, is_active := true }]
      clinic_treatments := db.clinic_treatments ++ rows
      next_plan_id := plan_id + 1
      next_clinic_treatment_id := db.next_clinic_treatment_id + rows.length }
  else db

/-- The key tuple of the claimed uniqueness invariant on treatment charge
lines: (patient, treatment_name, treatment_type, reference_id). -/
def tpKey (tp : TreatmentPricing) : String × String × String × Option Nat :=
  (tp.patient_pesel, tp.treatment_name, tp.treatment_type, tp.reference_id)

/-- At most one treatment charge line exists per
(patient, treatment_name, treatment_type, reference_id) tuple. -/
def tp_unique (db : DB) : Prop :=
  (db.treatment_pricing.map tpKey).Nodup

instance (db : DB) : Decidable (tp_unique db) := by
  unfold tp_unique
  infer_instance

/-- The states reachable from a fresh database by the exposed operations
of the billing core (patient creation, plan saving, plan status updates,
payments with optional allocation, direct allocation, direct charge-line
creation, visit creation, and the synchronizer). -/
inductive Reachable : DB → Prop
  | init : Reachable emptyDB
  | patient_step (db : DB) (pesel : String) :
      Reachable db → Reachable (add_patient db pesel)
  | save_plan_step (db : DB) (pesel : String) (ts : List NewTreatment)
      (now : Nat) :
      Reachable db → Reachable (save_clinic_treatment_plan db pesel ts now)
  | clinic_status_step (db : DB) (tid : Nat) (s : String) (now : Nat) :
      Reachable db →
      Reachable (update_clinic_treatment_status db tid s now).2
  | payment_api_step (db : DB) (pesel : String) (amount : Money)
      (ptype desc : String) (rid : Option Nat) (rtype : Option String)
      (method notes : String) (now : Nat) :
      Reachable db →
      Reachable (add_payment_api db pesel amount ptype desc rid rtype
        method notes now).2
  | upfi_step (db : DB) (pesel kind : String) (item_id : Nat)
      (amount : Money) (now : Nat) :
      Reachable db →
      Reachable (update_payment_for_item db pesel kind item_id amount
        now).2
  | pricing_api_step (db : DB) (pesel tname ttype : String) (price : Money)
      (rid : Option Nat) (now : Nat) :
      Reachable db →
      Reachable (add_treatment_pricing_api db pesel tname ttype price rid
        now).2
  | visit_step (db : DB) (pesel : String) (vdate : Nat)
      (vtype desc : String) (cost : Money) :
      Reachable db → Reachable (add_visit db pesel vdate vtype desc cost).2
  | sync_step (db : DB) (pesel : String) (now : Nat) :
      Reachable db →
      Reachable (sync_clinic_treatments_to_billing db pesel now).2

/-! ## Concrete states used to instantiate theorems with hypotheses -/

/-- A treatment charge line used by concrete instantiations. -/
def exLine : TreatmentPricing :=
  { id := 1, patient_pesel := "p1", treatment_name := "Laser"
    treatment_type := "laser", price := 400, paid_amount := 0
    reference_id := none, created_at := 0, updated_at := 0 }

/-- A one-patient, one-treatment-line billing state. -/
def exDB_line : DB :=
  { emptyDB with patients := ["p1"], treatment_pricing := [exLine]
                 next_pricing_id := 2 }

/-- A clinic-plan instance used by concrete instantiations: status
`"todo"`, empty history, quantity 2. -/
def exCT : ClinicTreatment :=
  { id := 1, plan_id := 1, treatment_name := "Laser"
    treatment_type := "laser", quantity := 2, completed_count := 0
    status := "todo", history := [], position := 0, created_at := 0 }

/-- A state with one patient whose active plan has the single instance
`exCT` and whose billing tables are empty. -/
def exDB_plan : DB :=
  { emptyDB with
    patients := ["p1"]
    clinic_treatment_plans := [{ id := 1, pesel := "p1", is_active := true }]
    clinic_treatments := [exCT]
    next_plan_id := 2
    next_clinic_treatment_id := 2 }

/-- A state with two billable visits (dates 3 and 7) and one free visit. -/
def exDB_visits : DB :=
  { emptyDB with
    patients := ["p1"]
    visits :=
      [ { id := 1, pesel := "p1", visit_date := 3
          visit_type := "consultation", purpose := ""
          cost := 100, paid_amount := 100 }
      , { id := 2, pesel := "p1", visit_date := 7
          visit_type := "laser", purpose := ""
          cost := 50, paid_amount := 0 }
      , { id := 3, pesel := "p1", visit_date := 5
          visit_type := "consultation", purpose := ""
          cost := 0, paid_amount := 0 } ]
    next_visit_id := 4 }

/-- A second clinic-plan instance (consultation, quantity 1). -/
def exCT2 : ClinicTreatment :=
  { id := 2, plan_id := 1, treatment_name := "Konsultacja"
    treatment_type := "consultation", quantity := 1, completed_count := 0
    status := "todo", history := [], position := 1, created_at := 0 }

/-- A state whose active plan has two instances and whose billing tables
are empty: both instances are sync candidates. -/
def exDB_plan2 : DB :=
  { exDB_plan with clinic_treatments := [exCT, exCT2]
                   next_clinic_treatment_id := 3 }

/-- The state produced by adding, through the exposed API, the same
treatment charge line twice for the same patient with identical name, type
and reference: the counterexample state for the uniqueness claim. -/
def c3_db : DB :=
  (add_treatment_pricing_api
    (add_treatment_pricing_api (add_patient emptyDB "p1") "p1" "Laser"
      "laser" 200 (some 5) 1).2
    "p1" "Laser" "laser" 200 (some 5) 2).2

/-- A state with one patient and no charge lines of any kind. -/
def c1_db : DB := add_patient emptyDB "p1"

/-- A payment carrying a reference to treatment line 1, issued through the
API against `c1_db`, where no charge line exists at all. -/
def c1_result : Option Nat × DB :=
  add_payment_api c1_db "p1" 50 "treatment" "" (some 1) (some "treatment")
    "cash" "" 0

/-! ## Theorems settling the claims -/

/-- C4: for every patient, `getPaymentSummary` returns `totalPaid` equal to
the sum of the patient's payment amounts with status `"paid"`; for each of
the three categories `total` is the sum of the category's line amounts,
`paid` the sum of its `paid_amount`s, and `outstanding = total - paid`;
`totalDue` equals the sum of the three category totals; `balance =
totalPaid - totalDue`; and an empty category contributes 0 to each field
(an empty list sum is 0), never null. -/
theorem claim_C4_payment_summary (db : DB) (pesel : String) :
    (get_payment_summary db pesel).total_paid =
      ((db.payments.filter
          (fun p => p.patient_pesel == pesel && p.status == "paid")).map
        (fun p => p.amount)).sum
  ∧ (get_payment_summary db pesel).treatments.total =
      ((db.treatment_pricing.filter (fun tp => tp.patient_pesel == pesel)).map
        (fun tp => tp.price)).sum
  ∧ (get_payment_summary db pesel).treatments.paid =
      ((db.treatment_pricing.filter (fun tp => tp.patient_pesel == pesel)).map
        (fun tp => tp.paid_amount)).sum
  ∧ (get_payment_summary db pesel).products.total =
      ((db.product_sales.filter (fun ps => ps.patient_pesel == pesel)).map
        (fun ps => ps.total_price)).sum
  ∧ (get_payment_summary db pesel).products.paid =
      ((db.product_sales.filter (fun ps => ps.patient_pesel == pesel)).map
        (fun ps => ps.paid_amount)).sum
  ∧ (get_payment_summary db pesel).visits.total =
      ((db.visits.filter (fun v => v.pesel == pesel)).map
        (fun v => v.cost)).sum
  ∧ (get_payment_summary db pesel).visits.paid =
      ((db.visits.filter (fun v => v.pesel == pesel)).map
        (fun v => v.paid_amount)).sum
  ∧ (get_payment_summary db pesel).treatments.outstanding =
      (get_payment_summary db pesel).treatments.total -
        (get_payment_summary db pesel).treatments.paid
  ∧ (get_payment_summary db pesel).products.outstanding =
      (get_payment_summary db pesel).products.total -
        (get_payment_summary db pesel).products.paid
  ∧ (get_payment_summary db pesel).visits.outstanding =
      (get_payment_summary db pesel).visits.total -
        (get_payment_summary db pesel).visits.paid
  ∧ (get_payment_summary db pesel).total_due =
      (get_payment_summary db pesel).treatments.total +
        (get_payment_summary db pesel).products.total +
        (get_payment_summary db pesel).visits.total
  ∧ (get_payment_summary db pesel).balance =
      (get_payment_summary db pesel).total_paid -
        (get_payment_summary db pesel).total_due :=
  ⟨rfl, rfl, rfl, rfl, rfl, rfl, rfl, rfl, rfl, rfl, rfl, rfl⟩

/-- C10: every `PaymentRecord` created by `add_payment` carries status
`"paid"` (the INSERT never names the `status` column, so the schema default
applies), and consequently a successful `addPayment` of amount `a` raises
the `totalPaid` of a subsequent `getPaymentSummary` by exactly `a`. -/
theorem claim_C10_add_payment_paid_status (db : DB) (pesel : String)
    (amount : Money) (ptype desc : String) (rid : Option Nat)
    (rtype : Option String) (method notes : String) (now : Nat) :
    (∃ p : PaymentRecord,
       (add_payment db pesel amount ptype desc rid rtype method notes
           now).2.payments = db.payments ++ [p]
       ∧ p.id = (add_payment db pesel amount ptype desc rid rtype method
           notes now).1
       ∧ p.amount = amount ∧ p.status = "paid")
  ∧ (get_payment_summary
        (add_payment db pesel amount ptype desc rid rtype method notes
          now).2 pesel).total_paid =
      (get_payment_summary db pesel).total_paid + amount := by
  constructor
  · exact ⟨_, rfl, rfl, rfl, rfl⟩
  · simp [add_payment, get_payment_summary, List.filter_append]

/-- C7 helper: a list map whose function fixes every element is the
identity. -/
theorem map_eq_self_of_fix {α : Type} {f : α → α} {l : List α}
    (h : ∀ a ∈ l, f a = a) : l.map f = l := by
  conv_rhs => rw [← List.map_id l]
  exact List.map_congr_left h

/-- Helper: the effect of `update_payment_for_item` on the treatment
charge lines, for every item kind. -/
theorem upfi_treatment_pricing (db : DB) (pesel kind : String)
    (item_id : Nat) (amount : Money) (now : Nat) :
    (update_payment_for_item db pesel kind item_id amount
        now).2.treatment_pricing =
      db.treatment_pricing.map (fun tp =>
        if kind = "treatment" ∧ tp.id = item_id ∧ tp.patient_pesel = pesel
        then { tp with paid_amount := tp.paid_amount + amount
                       updated_at := now }
        else tp) := by
  by_cases ht : kind = "treatment"
  · subst ht
    show db.treatment_pricing.map (bump_tp pesel item_id amount now) = _
    refine List.map_congr_left (fun tp _ => ?_)
    by_cases h1 : tp.id = item_id <;> by_cases h2 : tp.patient_pesel = pesel
      <;> simp [bump_tp, h1, h2]
  · by_cases hv : kind = "visit" <;> by_cases hp : kind = "product" <;>
      simp [update_payment_for_item, ht, hv, hp]

/-- Helper: the effect of `update_payment_for_item` on the visit lines. -/
theorem upfi_visits (db : DB) (pesel kind : String) (item_id : Nat)
    (amount : Money) (now : Nat) :
    (update_payment_for_item db pesel kind item_id amount now).2.visits =
      db.visits.map (fun v =>
        if kind = "visit" ∧ v.id = item_id ∧ v.pesel = pesel
        then { v with paid_amount := v.paid_amount + amount }
        else v) := by
  by_cases hv : kind = "visit"
  · subst hv
    show db.visits.map (bump_visit pesel item_id amount) = _
    refine List.map_congr_left (fun v _ => ?_)
    by_cases h1 : v.id = item_id <;> by_cases h2 : v.pesel = pesel
      <;> simp [bump_visit, h1, h2]
  · by_cases ht : kind = "treatment" <;> by_cases hp : kind = "product" <;>
      simp [update_payment_for_item, ht, hv, hp]

/-- Helper: the effect of `update_payment_for_item` on the product sale
lines. -/
theorem upfi_product_sales (db : DB) (pesel kind : String) (item_id : Nat)
    (amount : Money) (now : Nat) :
    (update_payment_for_item db pesel kind item_id amount
        now).2.product_sales =
      db.product_sales.map (fun ps =>
        if kind = "product" ∧ ps.id = item_id ∧ ps.patient_pesel = pesel
        then { ps with paid_amount := ps.paid_amount + amount
                       updated_at := now }
        else ps) := by
  by_cases hp : kind = "product"
  · subst hp
    show db.product_sales.map (bump_ps pesel item_id amount now) = _
    refine List.map_congr_left (fun ps _ => ?_)
    by_cases h1 : ps.id = item_id <;> by_cases h2 : ps.patient_pesel = pesel
      <;> simp [bump_ps, h1, h2]
  · by_cases ht : kind = "treatment" <;> by_cases hv : kind = "visit" <;>
      simp [update_payment_for_item, ht, hv, hp]

/-- Helper: the success flag of `update_payment_for_item` reports
existence of a matching line of the given kind. -/
theorem upfi_fst_iff (db : DB) (pesel kind : String) (item_id : Nat)
    (amount : Money) (now : Nat) :
    (update_payment_for_item db pesel kind item_id amount now).1 = true ↔
      ((kind = "treatment" ∧ ∃ tp ∈ db.treatment_pricing,
          tp.id = item_id ∧ tp.patient_pesel = pesel)
       ∨ (kind = "visit" ∧ ∃ v ∈ db.visits,
          v.id = item_id ∧ v.pesel = pesel)
       ∨ (kind = "product" ∧ ∃ ps ∈ db.product_sales,
          ps.id = item_id ∧ ps.patient_pesel = pesel)) := by
  by_cases ht : kind = "treatment"
  · subst ht
    simp [update_payment_for_item, List.any_eq_true, and_assoc]
  · by_cases hv : kind = "visit"
    · subst hv
      simp [update_payment_for_item, List.any_eq_true, and_assoc]
    · by_cases hp : kind = "product"
      · subst hp
        simp [update_payment_for_item, List.any_eq_true, and_assoc]
      · simp [update_payment_for_item, ht, hv, hp]

/-- Helper: `update_payment_for_item` never touches the payments table. -/
theorem upfi_payments (db : DB) (pesel kind : String) (item_id : Nat)
    (amount : Money) (now : Nat) :
    (update_payment_for_item db pesel kind item_id amount now).2.payments =
      db.payments := by
  by_cases ht : kind = "treatment" <;> by_cases hv : kind = "visit" <;>
    by_cases hp : kind = "product" <;>
    simp [update_payment_for_item, ht, hv, hp]

/-- Helper: when `update_payment_for_item` reports failure the state is
unchanged. -/
theorem upfi_false_unchanged (db : DB) (pesel kind : String)
    (item_id : Nat) (amount : Money) (now : Nat)
    (hfail : (update_payment_for_item db pesel kind item_id amount now).1 =
      false) :
    (update_payment_for_item db pesel kind item_id amount now).2 = db := by
  by_cases ht : kind = "treatment"
  · subst ht
    have hno : db.treatment_pricing.any
        (fun tp => tp.id == item_id && tp.patient_pesel == pesel) =
          false := by
      simpa [update_payment_for_item] using hfail
    rw [List.any_eq_false] at hno
    have hmap : db.treatment_pricing.map
        (bump_tp pesel item_id amount now) = db.treatment_pricing :=
      map_eq_self_of_fix (fun tp htp => by
        simp only [bump_tp]
        rw [if_neg (hno tp htp)])
    show { db with
      treatment_pricing :=
        db.treatment_pricing.map (bump_tp pesel item_id amount now) } = db
    rw [hmap]
  · by_cases hv : kind = "visit"
    · subst hv
      have hno : db.visits.any
          (fun v => v.id == item_id && v.pesel == pesel) = false := by
        simpa [update_payment_for_item] using hfail
      rw [List.any_eq_false] at hno
      have hmap : db.visits.map (bump_visit pesel item_id amount) =
          db.visits :=
        map_eq_self_of_fix (fun v hvm => by
          simp only [bump_visit]
          rw [if_neg (hno v hvm)])
      show { db with
        visits := db.visits.map (bump_visit pesel item_id amount) } = db
      rw [hmap]
    · by_cases hp : kind = "product"
      · subst hp
        have hno : db.product_sales.any
            (fun ps => ps.id == item_id && ps.patient_pesel == pesel) =
              false := by
          simpa [update_payment_for_item] using hfail
        rw [List.any_eq_false] at hno
        have hmap : db.product_sales.map
            (bump_ps pesel item_id amount now) = db.product_sales :=
          map_eq_self_of_fix (fun ps hpm => by
            simp only [bump_ps]
            rw [if_neg (hno ps hpm)])
        show { db with
          product_sales :=
            db.product_sales.map (bump_ps pesel item_id amount now) } = db
        rw [hmap]
      · simp [update_payment_for_item, ht, hv, hp]

/-- C7: `updatePaymentForItem` returns `true` exactly when a line of the
given kind with id `itemId` belongs to the patient; on success the matching
line's `paid_amount` grows by exactly `amount` with no clamping (every
non-matching line, and every line of the other kinds, is unchanged); on
failure the state is unchanged. -/
theorem claim_C7_update_payment_for_item (db : DB) (pesel kind : String)
    (item_id : Nat) (amount : Money) (now : Nat) :
    ((update_payment_for_item db pesel kind item_id amount now).1 = true ↔
      ((kind = "treatment" ∧ ∃ tp ∈ db.treatment_pricing,
          tp.id = item_id ∧ tp.patient_pesel = pesel)
       ∨ (kind = "visit" ∧ ∃ v ∈ db.visits,
          v.id = item_id ∧ v.pesel = pesel)
       ∨ (kind = "product" ∧ ∃ ps ∈ db.product_sales,
          ps.id = item_id ∧ ps.patient_pesel = pesel)))
  ∧ (update_payment_for_item db pesel kind item_id amount
        now).2.treatment_pricing =
      db.treatment_pricing.map (fun tp =>
        if kind = "treatment" ∧ tp.id = item_id ∧ tp.patient_pesel = pesel
        then { tp with paid_amount := tp.paid_amount + amount
                       updated_at := now }
        else tp)
  ∧ (update_payment_for_item db pesel kind item_id amount now).2.visits =
      db.visits.map (fun v =>
        if kind = "visit" ∧ v.id = item_id ∧ v.pesel = pesel
        then { v with paid_amount := v.paid_amount + amount }
        else v)
  ∧ (update_payment_for_item db pesel kind item_id amount
        now).2.product_sales =
      db.product_sales.map (fun ps =>
        if kind = "product" ∧ ps.id = item_id ∧ ps.patient_pesel = pesel
        then { ps with paid_amount := ps.paid_amount + amount
                       updated_at := now }
        else ps)
  ∧ (update_payment_for_item db pesel kind item_id amount now).2.payments =
      db.payments
  ∧ ((update_payment_for_item db pesel kind item_id amount now).1 = false →
      (update_payment_for_item db pesel kind item_id amount now).2 = db) :=
  ⟨upfi_fst_iff db pesel kind item_id amount now,
   upfi_treatment_pricing db pesel kind item_id amount now,
   upfi_visits db pesel kind item_id amount now,
   upfi_product_sales db pesel kind item_id amount now,
   upfi_payments db pesel kind item_id amount now,
   upfi_false_unchanged db pesel kind item_id amount now⟩


/-- C7 witness: on a concrete one-line state the treatment branch succeeds
and pays the line by exactly the supplied amount. -/
theorem claim_C7_witness :
    (update_payment_for_item exDB_line "p1" "treatment" 1 150
      3).2.treatment_pricing =
      [{ exLine with paid_amount := 150, updated_at := 3 }] := by
  have h := (claim_C7_update_payment_for_item exDB_line "p1" "treatment" 1
    150 3).2.1
  rw [h]
  simp [exDB_line, exLine]
/-- C8: a status update on an existing treatment-plan instance succeeds;
the instance's history gains exactly one entry, carrying the prior status,
the new status and the timestamp, when the supplied status differs from the
stored one, and gains nothing when it is equal; every instance with another
id is untouched. -/
theorem claim_C8_history_append_iff_change (db : DB) (tid : Nat)
    (s : String) (now : Nat) (ct : ClinicTreatment)
    (hfind : db.clinic_treatments.find? (fun c => c.id == tid) = some ct) :
    (update_clinic_treatment_status db tid s now).1 = true
  ∧ (∃ ct' ∈
      (update_clinic_treatment_status db tid s now).2.clinic_treatments,
      ct'.id = ct.id ∧ ct'.status = s
      ∧ ct'.history =
        (if ct.status = s then ct.history
         else ct.history ++ [⟨ct.status, s, now⟩])
      ∧ ct'.history.length =
        ct.history.length + (if ct.status = s then 0 else 1))
  ∧ (∀ c ∈ db.clinic_treatments, c.id ≠ tid →
      c ∈ (update_clinic_treatment_status db tid s now).2.clinic_treatments)
    := by
  have hmem := List.mem_of_find?_eq_some hfind
  have hpred := List.find?_some hfind
  have hid : ct.id = tid := by simpa using hpred
  refine ⟨?_, ?_, ?_⟩
  · simp [update_clinic_treatment_status, hfind]
  · simp only [update_clinic_treatment_status, hfind]
    refine ⟨_, List.mem_map_of_mem _ hmem, ?_⟩
    by_cases hs : ct.status = s
    · simp [hpred, hs]
    · simp [hpred, hs]
  · intro c hc hne
    simp only [update_clinic_treatment_status, hfind]
    have : (fun x : ClinicTreatment =>
        if x.id == tid then
          { x with status := s
                   history :=
                     if ct.status == s then x.history
                     else if ct.status == s then ct.history
                     else ct.history ++ [⟨ct.status, s, now⟩] }
        else x) c = c := by
      have : (c.id == tid) = false := by simpa using hne
      simp [this]
    exact this ▸ List.mem_map_of_mem _ hc

/-- C8 witness: on the concrete instance `exCT` (status `"todo"`, empty
history) an update to `"done"` succeeds and appends exactly the entry
recording the transition, and an update to the current status `"todo"`
succeeds and appends nothing. -/
theorem claim_C8_witness :
    ((update_clinic_treatment_status exDB_plan 1 "done" 9).1 = true
     ∧ (∃ ct' ∈ (update_clinic_treatment_status exDB_plan 1 "done"
          9).2.clinic_treatments,
        ct'.id = exCT.id ∧ ct'.status = "done"
        ∧ ct'.history =
          (if exCT.status = "done" then exCT.history
           else exCT.history ++ [⟨exCT.status, "done", 9⟩])
        ∧ ct'.history.length =
          exCT.history.length + (if exCT.status = "done" then 0 else 1)))
  ∧ ((update_clinic_treatment_status exDB_plan 1 "todo" 9).1 = true
     ∧ (∃ ct' ∈ (update_clinic_treatment_status exDB_plan 1 "todo"
          9).2.clinic_treatments,
        ct'.id = exCT.id ∧ ct'.status = "todo"
        ∧ ct'.history =
          (if exCT.status = "todo" then exCT.history
           else exCT.history ++ [⟨exCT.status, "todo", 9⟩])
        ∧ ct'.history.length =
          exCT.history.length + (if exCT.status = "todo" then 0 else 1))) :=
  ⟨⟨(claim_C8_history_append_iff_change exDB_plan 1 "done" 9 exCT
      (by decide)).1,
    (claim_C8_history_append_iff_change exDB_plan 1 "done" 9 exCT
      (by decide)).2.1⟩,
   ⟨(claim_C8_history_append_iff_change exDB_plan 1 "todo" 9 exCT
      (by decide)).1,
    (claim_C8_history_append_iff_change exDB_plan 1 "todo" 9 exCT
      (by decide)).2.1⟩⟩

/-- C9: `getPatientVisitsForBilling` returns exactly the billing rows of
the patient's visits with `cost > 0` (a permutation of that filter's
image), sorted by visit date descending; every returned row carries
`outstanding = cost - paid_amount` and status `"paid"` when the outstanding
is non-positive, `"unpaid"` otherwise.  The operation is a pure read: it is
modelled as a function of the state returning only the row list, so it
modifies no state by construction. -/
theorem claim_C9_visits_for_billing (db : DB) (pesel : String) :
    (get_patient_visits_for_billing db pesel).Perm
      ((db.visits.filter
          (fun v => v.pesel == pesel && decide (0 < v.cost))).map
        visit_billing_row)
  ∧ (get_patient_visits_for_billing db pesel).Pairwise
      (fun a b => b.visit_date ≤ a.visit_date)
  ∧ (∀ r ∈ get_patient_visits_for_billing db pesel,
      r.outstanding = r.cost - r.paid_amount
      ∧ (r.status = if r.outstanding ≤ 0 then "paid" else "unpaid")
      ∧ ∃ v ∈ db.visits, v.pesel = pesel ∧ 0 < v.cost
          ∧ r = visit_billing_row v) := by
  refine ⟨List.mergeSort_perm _ _, ?_, ?_⟩
  · have hs := @List.sorted_mergeSort VisitBillingRow
      (fun a b => decide (b.visit_date ≤ a.visit_date))
      (fun a b c hab hbc => by
        simp only [decide_eq_true_eq] at *
        exact le_trans hbc hab)
      (fun a b => by
        simp only [Bool.or_eq_true, decide_eq_true_eq]
        exact Nat.le_total b.visit_date a.visit_date)
      ((db.visits.filter
          (fun v => v.pesel == pesel && decide (0 < v.cost))).map
        visit_billing_row)
    exact hs.imp (fun h => by simpa using h)
  · intro r hr
    have hr' : r ∈ (db.visits.filter
        (fun v => v.pesel == pesel && decide (0 < v.cost))).map
          visit_billing_row :=
      (List.mergeSort_perm _ _).mem_iff.1 hr
    obtain ⟨v, hvf, rfl⟩ := List.mem_map.1 hr'
    obtain ⟨hvmem, hvp⟩ := List.mem_filter.1 hvf
    simp only [Bool.and_eq_true, beq_iff_eq, decide_eq_true_eq] at hvp
    exact ⟨rfl, rfl, v, hvmem, hvp.1, hvp.2, rfl⟩

/-- C9 witness: on the concrete state with visits dated 3, 7 and 5 (the
last with cost 0) the view is sorted by date descending. -/
theorem claim_C9_witness :
    (get_patient_visits_for_billing exDB_visits "p1").Pairwise
      (fun a b => b.visit_date ≤ a.visit_date) :=
  (claim_C9_visits_for_billing exDB_visits "p1").2.1

/-- Helper: every candidate instance contributes, at some row id, its
`sync_line` to the rows appended by the sync loop. -/
theorem sync_lines_from_mem (db : DB) (pesel : String) (now : Nat) :
    ∀ (pid : Nat) (l : List ClinicTreatment) (ct : ClinicTreatment),
      ct ∈ l → ∃ pid2, sync_line db pesel pid2 ct now ∈
        sync_lines_from db pesel now pid l := by
  intro pid l
  induction l generalizing pid with
  | nil =>
    intro ct h
    cases h
  | cons hd tl ih =>
    intro ct h
    cases List.mem_cons.1 h with
    | inl he =>
      refine ⟨pid, ?_⟩
      rw [he]
      simp [sync_lines_from]
    | inr ht =>
      obtain ⟨pid2, hm⟩ := ih (pid + 1) ct ht
      refine ⟨pid2, ?_⟩
      simp only [sync_lines_from, List.mem_cons]
      exact Or.inr hm

/-- Helper: the sync-candidate test of a clinic treatment, unfolded. -/
theorem sync_candidates_mem_iff (db : DB) (pesel : String)
    (ct : ClinicTreatment) :
    ct ∈ sync_candidates db pesel ↔
      ct ∈ db.clinic_treatments
      ∧ (db.clinic_treatment_plans.any
          (fun cp => cp.id == ct.plan_id && cp.pesel == pesel)) = true
      ∧ (db.treatment_pricing.any (fun tp =>
          tp.patient_pesel == pesel &&
          tp.treatment_name == ct.treatment_name &&
          tp.treatment_type == ct.treatment_type &&
          tp.reference_id == some ct.id)) = false := by
  unfold sync_candidates
  rw [List.mem_filter]
  simp [Bool.and_eq_true, Bool.not_eq_true', and_assoc]

/-- C2: a second consecutive `syncClinicTreatmentsToBilling` call on the
unchanged plan creates no new treatment charge lines: it returns 0 and
leaves the state exactly as the first call left it. -/
theorem claim_C2_sync_idempotent (db : DB) (pesel : String)
    (now now2 : Nat) :
    (sync_clinic_treatments_to_billing
      (sync_clinic_treatments_to_billing db pesel now).2 pesel now2).1 = 0
  ∧ (sync_clinic_treatments_to_billing
      (sync_clinic_treatments_to_billing db pesel now).2 pesel now2).2 =
    (sync_clinic_treatments_to_billing db pesel now).2 := by
  set d1 := (sync_clinic_treatments_to_billing db pesel now).2 with hd1
  have htp : d1.treatment_pricing = db.treatment_pricing ++
      sync_lines_from db pesel now db.next_pricing_id
        (sync_candidates db pesel) := rfl
  have hcand : sync_candidates d1 pesel = [] := by
    unfold sync_candidates
    rw [List.filter_eq_nil_iff]
    intro ct hct hcond
    obtain ⟨hplan, hnotex⟩ := Bool.and_eq_true_iff.mp hcond
    rw [Bool.not_eq_true'] at hnotex
    have hex : (d1.treatment_pricing.any (fun tp =>
          tp.patient_pesel == pesel &&
          tp.treatment_name == ct.treatment_name &&
          tp.treatment_type == ct.treatment_type &&
          tp.reference_id == some ct.id)) = true := by
      by_cases hc : ct ∈ sync_candidates db pesel
      · obtain ⟨pid2, hm⟩ :=
          sync_lines_from_mem db pesel now db.next_pricing_id
            (sync_candidates db pesel) ct hc
        refine List.any_eq_true.2
          ⟨sync_line db pesel pid2 ct now, ?_, ?_⟩
        · rw [htp]
          exact List.mem_append_right _ hm
        · simp [sync_line]
      · have hmem : ct ∈ db.clinic_treatments := hct
        have hplan' : (db.clinic_treatment_plans.any
            (fun cp => cp.id == ct.plan_id && cp.pesel == pesel)) =
              true := hplan
        have hold : (db.treatment_pricing.any (fun tp =>
            tp.patient_pesel == pesel &&
            tp.treatment_name == ct.treatment_name &&
            tp.treatment_type == ct.treatment_type &&
            tp.reference_id == some ct.id)) = true := by
          by_contra hne
          exact hc ((sync_candidates_mem_iff db pesel ct).2
            ⟨hmem, hplan', by simpa using hne⟩)
        obtain ⟨tp, htpm, htpp⟩ := List.any_eq_true.1 hold
        refine List.any_eq_true.2 ⟨tp, ?_, htpp⟩
        rw [htp]
        exact List.mem_append_left _ htpm
    rw [hex] at hnotex
    cases hnotex
  refine ⟨?_, ?_⟩
  · show (sync_candidates d1 pesel).length = 0
    rw [hcand]
    rfl
  · show ({ d1 with
      treatment_pricing := d1.treatment_pricing ++
        sync_lines_from d1 pesel now2 d1.next_pricing_id
          (sync_candidates d1 pesel)
      next_pricing_id := d1.next_pricing_id +
        (sync_candidates d1 pesel).length } : DB) = d1
    rw [hcand]
    simp [sync_lines_from]

/-- C5: every plan instance the sync call inserts produces a treatment
charge line whose amount is the resolved unit price times the instance's
quantity, where the unit price is the active catalog entry's price for an
exact name match and, only when that lookup misses, the static fallback
table value for the instance's treatment type; the fallback table carries
exactly the specified prices. -/
theorem claim_C5_sync_price (db : DB) (pesel : String) (now : Nat)
    (ct : ClinicTreatment) (hct : ct ∈ sync_candidates db pesel) :
    (∃ tp ∈ (sync_clinic_treatments_to_billing db pesel
        now).2.treatment_pricing,
      tp.reference_id = some ct.id
      ∧ tp.patient_pesel = pesel
      ∧ tp.treatment_name = ct.treatment_name
      ∧ tp.treatment_type = ct.treatment_type
      ∧ tp.paid_amount = 0
      ∧ tp.price =
        (match get_treatment_price db ct.treatment_name with
         | some price => price
         | none => default_prices ct.treatment_type) * (ct.quantity : Money))
  ∧ default_prices "injection" = 350
  ∧ default_prices "laser" = 200
  ∧ default_prices "massage" = 150
  ∧ default_prices "mesotherapy" = 300
  ∧ default_prices "led" = 100
  ∧ default_prices "microneedling" = 250
  ∧ default_prices "prp" = 400
  ∧ default_prices "carboxytherapy" = 180
  ∧ default_prices "peeling" = 120
  ∧ default_prices "consultation" = 80
  ∧ default_prices "other" = 100 := by
  refine ⟨?_, rfl, rfl, rfl, rfl, rfl, rfl, rfl, rfl, rfl, rfl, rfl⟩
  obtain ⟨pid2, hm⟩ := sync_lines_from_mem db pesel now db.next_pricing_id
    (sync_candidates db pesel) ct hct
  refine ⟨sync_line db pesel pid2 ct now, ?_, rfl, rfl, rfl, rfl, rfl, rfl⟩
  show _ ∈ db.treatment_pricing ++ sync_lines_from db pesel now
    db.next_pricing_id (sync_candidates db pesel)
  exact List.mem_append_right _ hm

/-- C5 witness: on the concrete two-instance plan with an empty catalog,
the consultation instance (quantity 1) is synced at the fallback price 80;
the instantiated statement exhibits the created line. -/
theorem claim_C5_witness :
    ∃ tp ∈ (sync_clinic_treatments_to_billing exDB_plan2 "p1"
        7).2.treatment_pricing,
      tp.reference_id = some exCT2.id
      ∧ tp.patient_pesel = "p1"
      ∧ tp.treatment_name = exCT2.treatment_name
      ∧ tp.treatment_type = exCT2.treatment_type
      ∧ tp.paid_amount = 0
      ∧ tp.price =
        (match get_treatment_price exDB_plan2 exCT2.treatment_name with
         | some price => price
         | none => default_prices exCT2.treatment_type) *
          (exCT2.quantity : Money) :=
  (claim_C5_sync_price exDB_plan2 "p1" 7 exCT2 (by decide)).1

/-- C6 counterexample: on the concrete state with two sync candidates, a
storage failure at the second INSERT (index 1, i.e. after the first INSERT
of the loop has run) makes the call return 0 with the state unchanged —
not, as claimed, return 1 with the first line committed. -/
theorem claim_C6_counterexample :
    (sync_candidates exDB_plan2 "p1").length = 2
  ∧ sync_with_failure exDB_plan2 "p1" 7 (some 1) = (0, exDB_plan2)
  ∧ ¬ ((sync_with_failure exDB_plan2 "p1" 7 (some 1)).1 = 1
       ∧ (sync_with_failure exDB_plan2 "p1" 7 (some 1)).2.treatment_pricing
           ≠ exDB_plan2.treatment_pricing) := by
  refine ⟨by decide, rfl, ?_⟩
  intro h
  exact absurd h.1 (by decide)

/-- C6 amended: a storage failure anywhere inside the insert loop of
`syncClinicTreatmentsToBilling` rolls the whole batch back — the single
COMMIT comes after the loop and the error handler issues a rollback — so
no line inserted by the call survives and the call returns 0, not the
count inserted so far. -/
theorem claim_C6_amended_failed_sync_rolls_back (db : DB) (pesel : String)
    (now k : Nat) (hk : k < (sync_candidates db pesel).length) :
    sync_with_failure db pesel now (some k) = (0, db) := by
  simp [sync_with_failure, hk]

/-- C6 witness: a failure at the first INSERT of the concrete two-candidate
state returns 0 and leaves the state unchanged. -/
theorem claim_C6_witness :
    sync_with_failure exDB_plan2 "p1" 7 (some 0) = (0, exDB_plan2) :=
  claim_C6_amended_failed_sync_rolls_back exDB_plan2 "p1" 7 0 (by decide)

/-- C3 counterexample: a state reachable through the exposed operations —
add a patient, then create the same treatment charge line twice through
`add_treatment_pricing_api`, which performs no duplicate check — holds two
TreatmentCharge lines with the identical
(patient, reference_id, treatment_name, treatment_type) tuple. -/
theorem claim_C3_counterexample :
    ∃ db, Reachable db ∧ ¬ tp_unique db := by
  refine ⟨c3_db, ?_, by decide⟩
  exact Reachable.pricing_api_step _ "p1" "Laser" "laser" 200 (some 5) 2
    (Reachable.pricing_api_step _ "p1" "Laser" "laser" 200 (some 5) 1
      (Reachable.patient_step _ "p1" Reachable.init))

/-- Helper: the keys of the lines appended by the sync loop are exactly
(patient, name, type, some instance-id) of the candidates, independently of
the row ids. -/
theorem sync_lines_from_map_key (db : DB) (pesel : String) (now : Nat) :
    ∀ (pid : Nat) (l : List ClinicTreatment),
      (sync_lines_from db pesel now pid l).map tpKey =
        l.map (fun ct => (pesel, ct.treatment_name, ct.treatment_type,
          some ct.id)) := by
  intro pid l
  induction l generalizing pid with
  | nil => rfl
  | cons hd tl ih =>
    simp [sync_lines_from, sync_line, tpKey, ih]

/-- C3 amended: the synchronizer itself never violates the uniqueness of
the (patient, treatment_name, treatment_type, reference_id) tuple: if the
plan instances have distinct ids (their primary key) and the state already
satisfies the invariant, the state after a sync call still satisfies it.
The invariant is not maintained by `add_treatment_pricing`, which inserts
without any duplicate check (see the counterexample). -/
theorem claim_C3_amended_sync_preserves_uniqueness (db : DB)
    (pesel : String) (now : Nat)
    (hids : (db.clinic_treatments.map ClinicTreatment.id).Nodup)
    (h : tp_unique db) :
    tp_unique (sync_clinic_treatments_to_billing db pesel now).2 := by
  show ((db.treatment_pricing ++
      sync_lines_from db pesel now db.next_pricing_id
        (sync_candidates db pesel)).map tpKey).Nodup
  rw [List.map_append, List.nodup_append,
    sync_lines_from_map_key db pesel now]
  have hsub : (sync_candidates db pesel).Sublist db.clinic_treatments :=
    List.filter_sublist _
  have hcand_ids : ((sync_candidates db pesel).map
      ClinicTreatment.id).Nodup :=
    (hsub.map ClinicTreatment.id).nodup hids
  refine ⟨h, ?_, ?_⟩
  · have h1 : List.Pairwise (fun a b : ClinicTreatment => a.id ≠ b.id)
        (sync_candidates db pesel) := List.pairwise_map.1 hcand_ids
    refine List.pairwise_map.2 (h1.imp ?_)
    intro a b hne hkeq
    apply hne
    have := congrArg
      (fun q : String × String × String × Option Nat => q.2.2.2) hkeq
    simpa using this
  · intro k hk1 hk2
    obtain ⟨ct, hctm, hkey⟩ := List.mem_map.1 hk2
    obtain ⟨tp, htpm, hkey1⟩ := List.mem_map.1 hk1
    have hnoex := ((sync_candidates_mem_iff db pesel ct).1 hctm).2.2
    rw [List.any_eq_false] at hnoex
    apply hnoex tp htpm
    have hcomp : tp.patient_pesel = pesel
        ∧ tp.treatment_name = ct.treatment_name
        ∧ tp.treatment_type = ct.treatment_type
        ∧ tp.reference_id = some ct.id := by
      have := hkey1.trans hkey.symm
      simpa [tpKey, Prod.ext_iff] using this
    simp [hcomp.1, hcomp.2.1, hcomp.2.2.1, hcomp.2.2.2]

/-- C3 witness for the amended theorem: syncing the concrete two-instance
plan from an empty billing state yields a state satisfying the uniqueness
invariant. -/
theorem claim_C3_witness :
    tp_unique (sync_clinic_treatments_to_billing exDB_plan2 "p1" 7).2 :=
  claim_C3_amended_sync_preserves_uniqueness exDB_plan2 "p1" 7
    (by decide) (by decide)

/-- C1 counterexample: against a state with one patient and no charge
lines at all, the payment API called with the reference
(kind `"treatment"`, id 1) succeeds — it returns a payment id and inserts
the PaymentRecord — yet no charge line of any kind exists afterwards, so no
referenced charge line had its `paid_amount` incremented (the failed
allocation is silently ignored). -/
theorem claim_C1_counterexample :
    c1_result.1 = some 1
  ∧ (∃ p ∈ c1_result.2.payments, p.amount = 50 ∧ p.reference_id = some 1
      ∧ p.reference_type = some "treatment")
  ∧ c1_result.2.treatment_pricing = []
  ∧ c1_result.2.visits = []
  ∧ c1_result.2.product_sales = []
  ∧ ¬ (∃ tp ∈ c1_result.2.treatment_pricing, tp.id = 1) := by
  refine ⟨rfl,
    ⟨{ id := 1
       patient_pesel := "p1"
       payment_date := 0
       amount := 50
       payment_type := "treatment"
       description := ""
       reference_id := some 1
       reference_type := some "treatment"
       payment_method := "cash"
       notes := ""
       status := "paid"
       created_at := 0
       updated_at := 0 }, ?_, rfl, rfl, rfl⟩, rfl, rfl, rfl, ?_⟩
  · show _ ∈ [_]
    exact List.mem_singleton.2 rfl
  · rintro ⟨tp, htp, -⟩
    cases htp

/-- C1 amended: a successful referenced `addPayment` call inserts exactly
one PaymentRecord with the given amount; the referenced charge line's
`paid_amount` is incremented by exactly that amount when the reference
resolves — the kind names one of the three line tables and a line with that
id belongs to the patient — and otherwise no charge line changes (the
allocation failure is ignored); with no reference only the PaymentRecord is
inserted and no charge line changes. -/
theorem claim_C1_amended_payment_allocation (db : DB) (pesel : String)
    (amount : Money) (ptype desc : String) (rid : Nat) (rkind : String)
    (method notes : String) (now : Nat)
    (hp : patient_exists db pesel = true)
    (hrid : rid ≠ 0) (hrkind : rkind ≠ "") :
    (add_payment_api db pesel amount ptype desc (some rid) (some rkind)
        method notes now).1 = some db.next_payment_id
  ∧ (∃ p : PaymentRecord,
      (add_payment_api db pesel amount ptype desc (some rid) (some rkind)
          method notes now).2.payments = db.payments ++ [p]
      ∧ p.amount = amount ∧ p.status = "paid"
      ∧ p.reference_id = some rid ∧ p.reference_type = some rkind)
  ∧ (add_payment_api db pesel amount ptype desc (some rid) (some rkind)
        method notes now).2.treatment_pricing =
      db.treatment_pricing.map (fun tp =>
        if rkind = "treatment" ∧ tp.id = rid ∧ tp.patient_pesel = pesel
        then { tp with paid_amount := tp.paid_amount + amount
                       updated_at := now }
        else tp)
  ∧ (add_payment_api db pesel amount ptype desc (some rid) (some rkind)
        method notes now).2.visits =
      db.visits.map (fun v =>
        if rkind = "visit" ∧ v.id = rid ∧ v.pesel = pesel
        then { v with paid_amount := v.paid_amount + amount }
        else v)
  ∧ (add_payment_api db pesel amount ptype desc (some rid) (some rkind)
        method notes now).2.product_sales =
      db.product_sales.map (fun ps =>
        if rkind = "product" ∧ ps.id = rid ∧ ps.patient_pesel = pesel
        then { ps with paid_amount := ps.paid_amount + amount
                       updated_at := now }
        else ps)
  ∧ (add_payment_api db pesel amount ptype desc none none method notes
        now).2.treatment_pricing = db.treatment_pricing
  ∧ (add_payment_api db pesel amount ptype desc none none method notes
        now).2.visits = db.visits
  ∧ (add_payment_api db pesel amount ptype desc none none method notes
        now).2.product_sales = db.product_sales := by
  have hred : add_payment_api db pesel amount ptype desc (some rid)
      (some rkind) method notes now =
      (some db.next_payment_id,
       (update_payment_for_item
         (add_payment db pesel amount ptype desc (some rid) (some rkind)
           method notes now).2 pesel rkind rid amount now).2) := by
    simp [add_payment_api, hp, truthyNat, truthyStr, hrid, hrkind,
      add_payment]
  have hred2 : add_payment_api db pesel amount ptype desc none none
      method notes now =
      (some (add_payment db pesel amount ptype desc none none method notes
          now).1,
       (add_payment db pesel amount ptype desc none none method notes
          now).2) := by
    simp [add_payment_api, hp, truthyNat]
  refine ⟨?_, ?_, ?_, ?_, ?_, ?_, ?_, ?_⟩
  · rw [hred]
  · refine ⟨{
        id := db.next_payment_id
        patient_pesel := pesel
        payment_date := now
        amount := amount
        payment_type := ptype
        description := desc
        reference_id := some rid
        reference_type := some rkind
        payment_method := method
        notes := notes
        status := "paid"
        created_at := now
        updated_at := now }, ?_, rfl, rfl, rfl, rfl⟩
    rw [hred]
    exact upfi_payments _ pesel rkind rid amount now
  · rw [hred]
    exact upfi_treatment_pricing _ pesel rkind rid amount now
  · rw [hred]
    exact upfi_visits _ pesel rkind rid amount now
  · rw [hred]
    exact upfi_product_sales _ pesel rkind rid amount now
  · rw [hred2]
    rfl
  · rw [hred2]
    rfl
  · rw [hred2]
    rfl

/-- C1 witness: on the concrete one-line state the referenced payment call
succeeds and returns the fresh payment id. -/
theorem claim_C1_witness :
    (add_payment_api exDB_line "p1" 150 "treatment" "" (some 1)
      (some "treatment") "cash" "" 3).1 = some exDB_line.next_payment_id :=
  (claim_C1_amended_payment_allocation exDB_line "p1" 150 "treatment" ""
    1 "treatment" "cash" "" 3 (by decide) (by decide) (by decide)).1

end Clinic
